import Mathlib

/-!
Shallow embedding of the suggestion-moderation core of isixhosa_click.

Source files embedded:
- `src/language.rs`: `PartOfSpeech`, `NounClass`, `NounClassOpt`, `WordLinkType`,
  their SQL encode/decode (`column_result` / `to_sql`) and `NounClass::to_prefixes`.
- `src/moderation.rs`: `accept_suggested_word`, `reject_suggested_word`,
  `edit_suggestion_form`, `process_one` and the `Success` / `Method` reply model.
- `src/edit.rs`: `submit_suggestion_reply` (failure-discarding submit boundary).

Parts of the repository that these handlers call but whose code is not under
`src/` (`database.rs`, `database/suggestion.rs`, `submit.rs`, `search.rs`) are
modelled from the spec; each such definition carries a doc comment starting
with `Modelled from the spec:`.

Machine integers are modelled as `Int` (SQLite `i64` values) and `Nat` (ids,
`u8` discriminants); fallible Rust code returns `Except`; a Rust `panic!`
(`Option::unwrap` on `None`) is modelled as the distinguished error value
`Panic.unwrap_none` of an `Except Panic` result.
-/

/-- Error value `DiscrimOutOfRange(i64, &'static str)` from `src/language.rs`:
a stored integer discriminator that is out of range for the named type. -/
structure DiscrimOutOfRange where
  value : Int
  type_name : String
  deriving DecidableEq

/-- `PartOfSpeech` from `src/language.rs`: closed `repr(u8)` enum with
explicitly assigned discriminant 1 for `Verb`, auto-incremented to 9 for `Other`. -/
inductive PartOfSpeech
  | Verb
  | Noun
  | Adjective
  | Adverb
  | Relative
  | Interjection
  | Conjunction
  | Preposition
  | Other
  deriving DecidableEq

/-- The `repr(u8)` discriminant of `PartOfSpeech` (`*self as u8`, `to_u8`). -/
def PartOfSpeech.to_u8 : PartOfSpeech → Nat
  | .Verb => 1
  | .Noun => 2
  | .Adjective => 3
  | .Adverb => 4
  | .Relative => 5
  | .Interjection => 6
  | .Conjunction => 7
  | .Preposition => 8
  | .Other => 9

/-- `num_enum::TryFromPrimitive` for `PartOfSpeech`: the inverse of the
discriminant assignment, failing on any `u8` outside the declared set. -/
def PartOfSpeech.try_from_primitive : Nat → Option PartOfSpeech
  | 1 => some .Verb
  | 2 => some .Noun
  | 3 => some .Adjective
  | 4 => some .Adverb
  | 5 => some .Relative
  | 6 => some .Interjection
  | 7 => some .Conjunction
  | 8 => some .Preposition
  | 9 => some .Other
  | _ => none

/-- Rust `i64 -> u8` conversion `v.try_into()`: succeeds exactly when
`0 <= v <= 255`, otherwise errors (mapped to `DiscrimOutOfRange` by callers). -/
def i64_to_u8 (v : Int) : Option Nat :=
  if 0 ≤ v ∧ v ≤ 255 then some v.toNat else none

/-- `impl FromSql for PartOfSpeech` (`column_result`, `src/language.rs:79-83`):
read the column as `i64`, narrow to `u8`, then `try_from_primitive`; both
failure points produce the same `DiscrimOutOfRange(v, "PartOfSpeech")` error. -/
def PartOfSpeech.column_result (v : Int) : Except DiscrimOutOfRange PartOfSpeech :=
  match i64_to_u8 v with
  | none => Except.error ⟨v, "PartOfSpeech"⟩
  | some n =>
    match PartOfSpeech.try_from_primitive n with
    | none => Except.error ⟨v, "PartOfSpeech"⟩
    | some p => Except.ok p

/-- `impl ToSql for PartOfSpeech`: stores `*self as u8 as i64`. -/
def PartOfSpeech.to_sql (p : PartOfSpeech) : Int := (p.to_u8 : Int)

/-- `NounClass` from `src/language.rs`: closed `repr(u8)` enum of the 15
noun classes, `Class1Um = 1` and the rest auto-incremented in order up to 15. -/
inductive NounClass
  | Class1Um
  | Aba
  | U
  | Oo
  | Class3Um
  | Imi
  | Ili
  | Ama
  | Isi
  | Izi
  | In
  | Izin
  | Ulu
  | Ubu
  | Uku
  deriving DecidableEq

/-- The `repr(u8)` discriminant of `NounClass` (`*self as u8`, `to_u8`). -/
def NounClass.to_u8 : NounClass → Nat
  | .Class1Um => 1
  | .Aba => 2
  | .U => 3
  | .Oo => 4
  | .Class3Um => 5
  | .Imi => 6
  | .Ili => 7
  | .Ama => 8
  | .Isi => 9
  | .Izi => 10
  | .In => 11
  | .Izin => 12
  | .Ulu => 13
  | .Ubu => 14
  | .Uku => 15

/-- `num_enum::TryFromPrimitive` for `NounClass`: inverse of the discriminant
assignment, failing on any `u8` outside `1..=15`. -/
def NounClass.try_from_primitive : Nat → Option NounClass
  | 1 => some .Class1Um
  | 2 => some .Aba
  | 3 => some .U
  | 4 => some .Oo
  | 5 => some .Class3Um
  | 6 => some .Imi
  | 7 => some .Ili
  | 8 => some .Ama
  | 9 => some .Isi
  | 10 => some .Izi
  | 11 => some .In
  | 12 => some .Izin
  | 13 => some .Ulu
  | 14 => some .Ubu
  | 15 => some .Uku
  | _ => none

/-- `impl ToSql for NounClass` (`src/language.rs:169-173`): stores
`*self as u8 as i64`. -/
def NounClass.to_sql (c : NounClass) : Int := (c.to_u8 : Int)

/-- `impl FromSql for NounClassOpt` (`column_result`, `src/language.rs:154-167`):
`255` is the sentinel for "no noun class" and decodes to `None`; any other
value is narrowed to `u8` and decoded with `try_from_primitive`, both failure
points producing `DiscrimOutOfRange(v, "NounClass")`. -/
def NounClassOpt.column_result (v : Int) : Except DiscrimOutOfRange (Option NounClass) :=
  if v = 255 then Except.ok none
  else
    match i64_to_u8 v with
    | none => Except.error ⟨v, "NounClass"⟩
    | some n =>
      match NounClass.try_from_primitive n with
      | none => Except.error ⟨v, "NounClass"⟩
      | some c => Except.ok (some c)

/-- `NounClassPrefixes` from `src/language.rs`: a singular prefix and an
optional plural prefix. -/
structure NounClassPrefixes where
  singular : String
  plural : Option String
  deriving DecidableEq

/-- `NounClassPrefixes::from_singular_plural`. -/
def NounClassPrefixes.from_singular_plural (s p : String) : NounClassPrefixes :=
  ⟨s, some p⟩

/-- `NounClassPrefixes::singular_class`. -/
def NounClassPrefixes.singular_class (s : String) : NounClassPrefixes :=
  ⟨s, none⟩

/-- `NounClass::to_prefixes` (`src/language.rs:197-214`). -/
def NounClass.to_prefixes : NounClass → NounClassPrefixes
  | .Class1Um | .Aba => NounClassPrefixes.from_singular_plural "um" "aba"
  | .U | .Oo => NounClassPrefixes.from_singular_plural "u" "oo"
  | .Class3Um | .Imi => NounClassPrefixes.from_singular_plural "um" "imi"
  | .Ili | .Ama => NounClassPrefixes.from_singular_plural "i(li)" "ama"
  | .Isi | .Izi => NounClassPrefixes.from_singular_plural "isi" "izi"
  | .In | .Izin => NounClassPrefixes.from_singular_plural "i(n)" "i(z)in"
  | .Ulu => NounClassPrefixes.singular_class "ulu"
  | .Ubu => NounClassPrefixes.singular_class "ubu"
  | .Uku => NounClassPrefixes.singular_class "uku"

/-- The 15 `NounClass` variants, in declaration order. -/
def NounClass.all : List NounClass :=
  [.Class1Um, .Aba, .U, .Oo, .Class3Um, .Imi, .Ili, .Ama, .Isi, .Izi, .In,
   .Izin, .Ulu, .Ubu, .Uku]

/-- Modelled from the spec: `MaybeEdited<T>` (the spec's `VersionedField<T>`,
`database/suggestion.rs`, not under `src/`): a pair (`original`, `proposed`)
where `original` is the value live in the canonical store at first submission
(or the type's empty/default value for a brand-new entry) and `proposed` is
the value currently suggested; `current()` returns the proposed value and
`changed()` holds iff proposed differs from original under value equality. -/
structure VersionedField (T : Type) where
  original : T
  proposed : T
  deriving DecidableEq

/-- Modelled from the spec: `current()` of a versioned field is the value
currently suggested. -/
def VersionedField.current {T : Type} (f : VersionedField T) : T := f.proposed

/-- Modelled from the spec: `changed()` holds iff proposed differs from the
original baseline under value equality. -/
def VersionedField.changed {T : Type} [DecidableEq T] (f : VersionedField T) : Bool :=
  decide (f.proposed ≠ f.original)

/-- Canonical `Entry` (spec section 3): the authoritative word row. The id is
the association-list key in `Db.words`, so it is not repeated here. -/
structure Entry where
  english : String
  xhosa : String
  part_of_speech : PartOfSpeech
  is_plural : Bool
  noun_class : Option NounClass
  deriving DecidableEq

/-- `SuggestedWord` (`database/suggestion.rs`, fields as used by
`src/moderation.rs`): keyed by `suggestion_id`, with `word_id` the optional
reference to an existing canonical entry and one versioned field per editable
attribute. -/
structure SuggestedWord where
  suggestion_id : Nat
  word_id : Option Nat
  english : VersionedField String
  xhosa : VersionedField String
  part_of_speech : VersionedField PartOfSpeech
  is_plural : VersionedField Bool
  noun_class : VersionedField (Option NounClass)
  deriving DecidableEq

/-- `WordDocument` (`search.rs`, fields as constructed in
`src/moderation.rs:135-142`): the denormalized search-index document. -/
structure WordDocument where
  id : Nat
  english : String
  xhosa : String
  part_of_speech : PartOfSpeech
  is_plural : Bool
  noun_class : Option NounClass
  deriving DecidableEq

/-- The document built by `accept_suggested_word` (`src/moderation.rs:135-142`):
every field is the suggestion's `current()` value and the id is the entry id
returned by the merge. -/
def SuggestedWord.to_document (word : SuggestedWord) (id : Nat) : WordDocument :=
  { id := id
    english := word.english.current
    xhosa := word.xhosa.current
    part_of_speech := word.part_of_speech.current
    is_plural := word.is_plural.current
    noun_class := word.noun_class.current }

/-- The canonical entry holding the suggestion's merged (`current()`) field
values, as applied to the store by the accept merge (spec section 4.2). -/
def SuggestedWord.merged_entry (word : SuggestedWord) : Entry :=
  { english := word.english.current
    xhosa := word.xhosa.current
    part_of_speech := word.part_of_speech.current
    is_plural := word.is_plural.current
    noun_class := word.noun_class.current }

/-- Database state behind the connection pool: the canonical word store (an
association list keyed by entry id, with the next generated id), and the
pending-suggestion table. -/
structure Db where
  words : List (Nat × Entry)
  next_word_id : Nat
  suggestions : List SuggestedWord
  next_suggestion_id : Nat
  deriving DecidableEq

/-- Read-by-id of the canonical word store (spec section 6). -/
def Db.lookup_word (db : Db) (id : Nat) : Option Entry :=
  (db.words.find? (fun p => p.1 == id)).map (fun p => p.2)

/-- Modelled from the spec: `SuggestedWord::get_full`
(`database/suggestion.rs`, not under `src/`): the repository `get(id)`, which
yields the pending suggestion with that id or `None` when no pending row
matches (`NotFound`). -/
def SuggestedWord.get_full (db : Db) (id : Nat) : Option SuggestedWord :=
  db.suggestions.find? (fun w => w.suggestion_id == id)

/-- Modelled from the spec: `SuggestedWord::delete`
(`database/suggestion.rs`, not under `src/`): `delete(id) -> bool`, true if a
row was removed, false if none existed; not-found is not an error. Returns
the updated state together with the boolean. -/
def SuggestedWord.delete (db : Db) (id : Nat) : Db × Bool :=
  let found := db.suggestions.any (fun w => w.suggestion_id == id)
  ({ db with suggestions := db.suggestions.filter (fun w => !(w.suggestion_id == id)) },
   found)

/-- Modelled from the spec: `accept_whole_word_suggestion` (`database.rs`, not
under `src/`), the repository `accept_merge`: applies `current()` of every
field to the canonical store — insert with the next generated id when the
suggestion has no referenced entry id, else update in place by that id — then
removes the suggestion row (one atomic unit), and returns the entry id. -/
def accept_whole_word_suggestion (db : Db) (word : SuggestedWord) : Db × Nat :=
  let db1 := { db with
    suggestions := db.suggestions.filter (fun w => !(w.suggestion_id == word.suggestion_id)) }
  match word.word_id with
  | none =>
    let id := db.next_word_id
    ({ db1 with words := db1.words ++ [(id, word.merged_entry)], next_word_id := id + 1 }, id)
  | some id =>
    ({ db1 with
        words := db1.words.map (fun p => if p.1 == id then (id, word.merged_entry) else p) },
     id)

/-- A call issued to the external search index: `add(document)` or
`edit(document)` (spec section 4.4). -/
inductive IndexCall
  | add (document : WordDocument)
  | edit (document : WordDocument)
  deriving DecidableEq

/-- `IndexSyncFailure` (spec section 7): post-commit index propagation
failure. -/
inductive IndexSyncFailure
  | failed
  deriving DecidableEq

/-- `TantivyClient` (`search.rs`, not under `src/`): modelled as the log of
index calls issued so far, plus an oracle flag saying whether index
operations currently fail (resource behind the client). -/
structure TantivyClient where
  calls : List IndexCall
  fails : Bool
  deriving DecidableEq

/-- Modelled from the spec: `TantivyClient::add_new_word` (`search.rs`, not
under `src/`): issues an `add(document)` call to the index; the call is
awaited and its outcome may be `IndexSyncFailure` (here governed by the
client's failure oracle). -/
def TantivyClient.add_new_word (t : TantivyClient) (d : WordDocument) :
    TantivyClient × Except IndexSyncFailure Unit :=
  ({ t with calls := t.calls ++ [IndexCall.add d] },
   if t.fails then Except.error IndexSyncFailure.failed else Except.ok ())

/-- Modelled from the spec: `TantivyClient::edit_word` (`search.rs`, not under
`src/`): issues an `edit(document)` call to the index; the call is awaited
and its outcome may be `IndexSyncFailure`. -/
def TantivyClient.edit_word (t : TantivyClient) (d : WordDocument) :
    TantivyClient × Except IndexSyncFailure Unit :=
  ({ t with calls := t.calls ++ [IndexCall.edit d] },
   if t.fails then Except.error IndexSyncFailure.failed else Except.ok ())

/-- `Method` from `src/moderation.rs`. -/
inductive Method
  | Edit
  | Accept
  | Reject
  deriving DecidableEq

/-- `Success` from `src/moderation.rs`: the previous-success marker shown by
the moderation template (HTML rendering itself is external to the core). -/
structure Success where
  success : Bool
  method : Option Method
  deriving DecidableEq

/-- `ModerationActionParams` from `src/moderation.rs`. -/
structure ModerationActionParams where
  suggestion : Nat
  method : Method
  deriving DecidableEq

/-- A Rust `panic!` escaping a handler (abnormal abort, no reply): here always
`Option::unwrap` called on `None`. -/
inductive Panic
  | unwrap_none
  deriving DecidableEq

/-- `suggested_words` (`src/moderation.rs:91-103`): renders the moderation
template with the given previous-success marker; read-only on the database.
The reply is modelled as the `Option Success` the template carries. -/
def suggested_words (db : Db) (previous_success : Option Success) : Db × Option Success :=
  (db, previous_success)

/-- `WordSubmission` (`submit.rs`, not under `src/`): a proposal form —
optional referenced entry id plus the proposed attribute values. -/
structure WordSubmission where
  word_id : Option Nat
  english : String
  xhosa : String
  part_of_speech : PartOfSpeech
  is_plural : Bool
  noun_class : Option NounClass
  deriving DecidableEq

/-- `SubmitError` (spec section 7, submit-time failures): `InvalidReference`
when the proposal names a nonexistent entry id. -/
inductive SubmitError
  | invalid_reference
  deriving DecidableEq

/-- Modelled from the spec: the suggestion row inserted by submit — original
values joined from the referenced entry, or the empty/default value when
creating a new entry (`PartOfSpeech` has no empty value, so the original of a
brand-new entry defaults to the proposed value there). -/
def WordSubmission.to_suggested_word (w : WordSubmission) (sid : Nat)
    (orig : Option Entry) : SuggestedWord :=
  match orig with
  | some e =>
    { suggestion_id := sid, word_id := w.word_id
      english := ⟨e.english, w.english⟩
      xhosa := ⟨e.xhosa, w.xhosa⟩
      part_of_speech := ⟨e.part_of_speech, w.part_of_speech⟩
      is_plural := ⟨e.is_plural, w.is_plural⟩
      noun_class := ⟨e.noun_class, w.noun_class⟩ }
  | none =>
    { suggestion_id := sid, word_id := w.word_id
      english := ⟨"", w.english⟩
      xhosa := ⟨"", w.xhosa⟩
      part_of_speech := ⟨w.part_of_speech, w.part_of_speech⟩
      is_plural := ⟨false, w.is_plural⟩
      noun_class := ⟨none, w.noun_class⟩ }

/-- Modelled from the spec: `submit_suggestion` (`submit.rs`, not under
`src/`): inserts a new pending suggestion row and returns its id; fails with
`InvalidReference` when the referenced entry id does not exist, leaving the
state unchanged. -/
def submit_suggestion (db : Db) (w : WordSubmission) : Db × Except SubmitError Nat :=
  match w.word_id with
  | some wid =>
    match Db.lookup_word db wid with
    | none => (db, Except.error SubmitError.invalid_reference)
    | some e =>
      let sid := db.next_suggestion_id
      ({ db with
          suggestions := db.suggestions ++ [w.to_suggested_word sid (some e)]
          next_suggestion_id := sid + 1 },
       Except.ok sid)
  | none =>
    let sid := db.next_suggestion_id
    ({ db with
        suggestions := db.suggestions ++ [w.to_suggested_word sid none]
        next_suggestion_id := sid + 1 },
     Except.ok sid)

/-- `edit_suggestion_form` (`src/moderation.rs:105-118`): calls
`submit_suggestion` discarding its result, then reports
`Success { success: true, method: Some(Edit) }` unconditionally. -/
def edit_suggestion_form (db : Db) (submission : WordSubmission) : Db × Option Success :=
  let (db1, _result) := submit_suggestion db submission
  suggested_words db1 (some { success := true, method := some Method.Edit })

/-- `accept_suggested_word` (`src/moderation.rs:122-158`): loads the
suggestion with `get_full(..).unwrap()` — a panic when the row is absent —
then runs the repository merge, builds the denormalized document from the
clone's `current()` values with the merged entry id, issues `add_new_word`
when the suggestion had no referenced entry id and `edit_word` otherwise
(discarding the index call's outcome), and reports
`Success { success: true, method: Some(Accept) }`. -/
def accept_suggested_word (db : Db) (tantivy : TantivyClient) (suggestion : Nat) :
    Except Panic (Db × TantivyClient × Option Success) :=
  match SuggestedWord.get_full db suggestion with
  | none => Except.error Panic.unwrap_none
  | some word =>
    let (db1, id) := accept_whole_word_suggestion db word
    let document := word.to_document id
    let (tantivy1, _outcome) :=
      if word.word_id.isNone then tantivy.add_new_word document
      else tantivy.edit_word document
    let (db2, reply) :=
      suggested_words db1 (some { success := true, method := some Method.Accept })
    Except.ok (db2, tantivy1, reply)

/-- `reject_suggested_word` (`src/moderation.rs:160-177`): deletes the
suggestion row and reports `Success { success, method: Some(Reject) }` with
`success` the boolean returned by `delete`. -/
def reject_suggested_word (db : Db) (suggestion : Nat) : Db × Option Success :=
  let (db1, success) := SuggestedWord.delete db suggestion
  suggested_words db1 (some { success := success, method := some Method.Reject })

/-- Modelled from the spec: `edit_suggestion_page` (`submit.rs`, not under
`src/`): renders the edit form for a suggestion; read-only, no store or index
effect, and no previous-success marker. -/
def edit_suggestion_page (db : Db) (_suggestion : Nat) : Db × Option Success :=
  (db, none)

/-- `process_one` (`src/moderation.rs:179-195`): dispatches one moderation
action on its method. -/
def process_one (db : Db) (tantivy : TantivyClient) (params : ModerationActionParams) :
    Except Panic (Db × TantivyClient × Option Success) :=
  match params.method with
  | Method.Edit =>
    let (db1, reply) := edit_suggestion_page db params.suggestion
    Except.ok (db1, tantivy, reply)
  | Method.Accept => accept_suggested_word db tantivy params.suggestion
  | Method.Reject =>
    let (db1, reply) := reject_suggested_word db params.suggestion
    Except.ok (db1, tantivy, reply)

/-- A pending suggestion (id 2, no referenced entry id) used by the concrete
witness instances below. -/
def exampleSuggestion : SuggestedWord :=
  ⟨2, none, ⟨"", "tree"⟩, ⟨"", "umthi"⟩, ⟨PartOfSpeech.Noun, PartOfSpeech.Noun⟩,
   ⟨false, false⟩, ⟨none, some NounClass.Class1Um⟩⟩

/-- A database with one pending suggestion (id 2) and an empty word store. -/
def exampleDb : Db := ⟨[], 0, [exampleSuggestion], 3⟩

/-- A submission proposing an edit to entry id 7, used concretely below. -/
def exampleBadRefSubmission : WordSubmission :=
  ⟨some 7, "big house", "indlu enkulu", PartOfSpeech.Noun, false, none⟩

set_option maxRecDepth 4096 in
theorem partOfSpeech_tfp_none_of_not_range :
    ∀ n : Nat, n < 256 → ¬(1 ≤ n ∧ n ≤ 9) → PartOfSpeech.try_from_primitive n = none := by
  decide

set_option maxRecDepth 4096 in
theorem nounClass_tfp_none_of_not_range :
    ∀ n : Nat, n < 256 → ¬(1 ≤ n ∧ n ≤ 15) → NounClass.try_from_primitive n = none := by
  decide

/-- Claim C6: decoding a stored integer into `PartOfSpeech` returns the
corresponding variant for each known discriminant, and fails with the
distinct `DiscrimOutOfRange` error (never silently defaulting) for every
integer outside `{1..9}`, including negative values and values exceeding the
`u8` range. -/
theorem part_of_speech_decode_spec :
    (∀ p : PartOfSpeech, PartOfSpeech.column_result (PartOfSpeech.to_sql p) = Except.ok p) ∧
    (∀ v : Int, ¬(1 ≤ v ∧ v ≤ 9) →
      PartOfSpeech.column_result v = Except.error ⟨v, "PartOfSpeech"⟩) := by
  constructor
  · intro p; cases p <;> rfl
  · intro v hv
    by_cases hb : 0 ≤ v ∧ v ≤ 255
    · have h1 : i64_to_u8 v = some v.toNat := by unfold i64_to_u8; rw [if_pos hb]
      have h2 : PartOfSpeech.try_from_primitive v.toNat = none :=
        partOfSpeech_tfp_none_of_not_range v.toNat (by omega) (by omega)
      simp only [PartOfSpeech.column_result, h1, h2]
    · have h1 : i64_to_u8 v = none := by unfold i64_to_u8; rw [if_neg hb]
      simp only [PartOfSpeech.column_result, h1]

/-- Witness for claim C6 at the concrete out-of-range input 300. -/
theorem part_of_speech_decode_spec_witness :
    (¬(1 ≤ (300 : Int) ∧ (300 : Int) ≤ 9)) ∧
    PartOfSpeech.column_result 300 = Except.error ⟨300, "PartOfSpeech"⟩ :=
  ⟨by decide, part_of_speech_decode_spec.2 300 (by decide)⟩

/-- Claim C7: for every one of the 15 `NounClass` variants, encoding to its
stored integer (`to_sql`) and decoding back (`NounClassOpt::column_result`)
yields the same variant, and decoding the reserved sentinel 255 yields the
explicit absent value `none`, never a class instance. -/
theorem noun_class_roundtrip_spec :
    (∀ c : NounClass, NounClassOpt.column_result (NounClass.to_sql c) = Except.ok (some c)) ∧
    NounClassOpt.column_result 255 = Except.ok none := by
  constructor
  · intro c; cases c <;> rfl
  · rfl

/-- Claim C8: every one of the 15 `NounClass` variants maps to a non-empty
singular prefix and an optional plural prefix, and exactly the three classes
`Ulu`, `Ubu`, `Uku` (and no others) are singular-only. -/
theorem noun_class_prefixes_spec :
    (∀ c : NounClass, (NounClass.to_prefixes c).singular ≠ "") ∧
    (∀ c : NounClass, ((NounClass.to_prefixes c).plural = none ↔
      (c = NounClass.Ulu ∨ c = NounClass.Ubu ∨ c = NounClass.Uku))) ∧
    NounClass.all.length = 15 ∧ NounClass.all.Nodup ∧
    (∀ c : NounClass, c ∈ NounClass.all) ∧
    (NounClass.all.filter (fun c => (NounClass.to_prefixes c).plural.isNone)).length = 3 := by
  refine ⟨?_, ?_, ?_, ?_, ?_, ?_⟩
  · intro c; cases c <;> decide
  · intro c; cases c <;> decide
  · rfl
  · decide
  · intro c; cases c <;> decide
  · rfl

/-- Claim C10: the sentinel integer for "no noun class assigned" is exactly
255 (it decodes to `none` and is the only integer that does), and decoding
any stored integer other than `1..15` and 255 — including 0, 16..254,
negatives, and values above 255 — fails with the distinct `DiscrimOutOfRange`
error rather than yielding an absent value or any class. -/
theorem noun_class_sentinel_spec :
    NounClassOpt.column_result 255 = Except.ok none ∧
    (∀ v : Int, NounClassOpt.column_result v = Except.ok none → v = 255) ∧
    (∀ v : Int, v ≠ 255 → ¬(1 ≤ v ∧ v ≤ 15) →
      NounClassOpt.column_result v = Except.error ⟨v, "NounClass"⟩) := by
  refine ⟨rfl, ?_, ?_⟩
  · intro v h
    by_cases hv : v = 255
    · exact hv
    · exfalso
      unfold NounClassOpt.column_result at h
      rw [if_neg hv] at h
      cases heq : i64_to_u8 v with
      | none => simp [heq] at h
      | some n =>
        cases htfp : NounClass.try_from_primitive n with
        | none => simp [heq, htfp] at h
        | some c => simp [heq, htfp] at h
  · intro v hv hr
    unfold NounClassOpt.column_result
    rw [if_neg hv]
    by_cases hb : 0 ≤ v ∧ v ≤ 255
    · have h1 : i64_to_u8 v = some v.toNat := by unfold i64_to_u8; rw [if_pos hb]
      have h2 : NounClass.try_from_primitive v.toNat = none :=
        nounClass_tfp_none_of_not_range v.toNat (by omega) (by omega)
      simp only [h1, h2]
    · have h1 : i64_to_u8 v = none := by unfold i64_to_u8; rw [if_neg hb]
      simp only [h1]

/-- Witness for claim C10 at the concrete out-of-range input 16. -/
theorem noun_class_sentinel_spec_witness :
    ((16 : Int) ≠ 255 ∧ ¬(1 ≤ (16 : Int) ∧ (16 : Int) ≤ 15)) ∧
    NounClassOpt.column_result 16 = Except.error ⟨16, "NounClass"⟩ :=
  ⟨by decide, noun_class_sentinel_spec.2.2 16 (by decide) (by decide)⟩

/-- Claim C9: for every field type `T` supporting value equality and every
versioned field value, `changed()` returns `false` if and only if `current()`
equals `original()`. -/
theorem versioned_field_changed_iff {T : Type} [DecidableEq T] (f : VersionedField T) :
    f.changed = false ↔ f.current = f.original := by
  simp [VersionedField.changed, VersionedField.current]

/-- Witness for claim C9 at `T = String` with both sides the empty value. -/
theorem versioned_field_changed_iff_witness :
    ((⟨"", ""⟩ : VersionedField String).changed = false ↔
      (⟨"", ""⟩ : VersionedField String).current = (⟨"", ""⟩ : VersionedField String).original) :=
  versioned_field_changed_iff (⟨"", ""⟩ : VersionedField String)

theorem find?_key_append_single {β : Type} (l : List (Nat × β)) (id : Nat) (b : β)
    (h : ∀ p ∈ l, (p.1 == id) = false) :
    (l ++ [(id, b)]).find? (fun p => p.1 == id) = some (id, b) := by
  induction l with
  | nil => simp
  | cons a tl ih =>
    have ha := h a (by simp)
    have ih2 := ih (fun p hp => h p (by simp [hp]))
    simp only [List.cons_append, List.find?, ha, List.append_eq, ih2]

theorem find?_key_map_update {β : Type} (l : List (Nat × β)) (id : Nat) (b : β)
    (h : ∃ p ∈ l, p.1 = id) :
    (l.map (fun p => if p.1 == id then (id, b) else p)).find? (fun p => p.1 == id) =
      some (id, b) := by
  induction l with
  | nil => simp at h
  | cons a tl ih =>
    by_cases ha : a.1 = id
    · simp [List.map_cons, ha]
    · have ha2 : (a.1 == id) = false := by simp [ha]
      have ih2 : (tl.map (fun p => if p.1 == id then (id, b) else p)).find?
          (fun p => p.1 == id) = some (id, b) := by
        apply ih
        rcases h with ⟨p, hp, hpe⟩
        rcases List.mem_cons.mp hp with h1 | h2
        · exact absurd (h1 ▸ hpe) ha
        · exact ⟨p, h2, hpe⟩
      simp only [List.map_cons, ha2, Bool.false_eq_true, if_false, List.find?, ih2]

theorem find?_filter_not_self {α : Type} (l : List α) (p : α → Bool) :
    (l.filter (fun a => !(p a))).find? p = none := by
  rw [List.find?_eq_none]
  intro a ha
  have h2 := (List.mem_filter.mp ha).2
  simp at h2
  simp [h2]

theorem filter_not_eq_self_of_none {α : Type} (l : List α) (p : α → Bool)
    (h : ∀ a ∈ l, p a = false) : l.filter (fun a => !(p a)) = l := by
  induction l with
  | nil => rfl
  | cons a tl ih =>
    have ha := h a (by simp)
    simp [List.filter_cons, ha, ih (fun x hx => h x (by simp [hx]))]

theorem any_eq_false_of_none {α : Type} (l : List α) (p : α → Bool)
    (h : ∀ a ∈ l, p a = false) : l.any p = false := by
  rw [List.any_eq_false]
  intro a ha
  simp [h a ha]

theorem any_filter_not_self {α : Type} (l : List α) (p : α → Bool) :
    (l.filter (fun a => !(p a))).any p = false := by
  rw [List.any_eq_false]
  intro a ha
  have h2 := (List.mem_filter.mp ha).2
  simp at h2
  simp [h2]

theorem accept_eq_of_get_none_ref (db : Db) (t : TantivyClient) (sid : Nat)
    (word : SuggestedWord) (h : SuggestedWord.get_full db sid = some word)
    (hw : word.word_id = none) :
    accept_suggested_word db t sid = Except.ok
      ({ words := db.words ++ [(db.next_word_id, word.merged_entry)]
         next_word_id := db.next_word_id + 1
         suggestions := db.suggestions.filter
           (fun w2 => !(w2.suggestion_id == word.suggestion_id))
         next_suggestion_id := db.next_suggestion_id },
       { calls := t.calls ++ [IndexCall.add (word.to_document db.next_word_id)]
         fails := t.fails },
       some { success := true, method := some Method.Accept }) := by
  unfold accept_suggested_word
  split
  · rename_i heq
    rw [h] at heq
    exact Option.noConfusion heq
  · rename_i w heq
    rw [h] at heq
    injection heq with h2
    subst h2
    unfold accept_whole_word_suggestion
    rw [hw]
    rfl

theorem accept_eq_of_get_some_ref (db : Db) (t : TantivyClient) (sid : Nat)
    (word : SuggestedWord) (wid : Nat) (h : SuggestedWord.get_full db sid = some word)
    (hw : word.word_id = some wid) :
    accept_suggested_word db t sid = Except.ok
      ({ words := db.words.map (fun p => if p.1 == wid then (wid, word.merged_entry) else p)
         next_word_id := db.next_word_id
         suggestions := db.suggestions.filter
           (fun w2 => !(w2.suggestion_id == word.suggestion_id))
         next_suggestion_id := db.next_suggestion_id },
       { calls := t.calls ++ [IndexCall.edit (word.to_document wid)]
         fails := t.fails },
       some { success := true, method := some Method.Accept }) := by
  unfold accept_suggested_word
  split
  · rename_i heq
    rw [h] at heq
    exact Option.noConfusion heq
  · rename_i w heq
    rw [h] at heq
    injection heq with h2
    subst h2
    unfold accept_whole_word_suggestion
    rw [hw]
    rfl

/-- Claim C1: for every accepted suggestion, the accept operation builds
exactly one search-index document — its id equal to the canonical entry id
returned by the merge, its fields equal to the suggestion's merged
(`current()`) values, with the merged entry stored in the canonical store
under that same id — and it issues the index `add` call when the suggestion
has no referenced entry id and the `edit` call when it has one. The
hypotheses are the store invariants: the pending row exists, generated ids
are fresh, and a referenced entry id exists in the store. -/
theorem accept_builds_single_document (db : Db) (t : TantivyClient) (sid : Nat)
    (word : SuggestedWord) (h : SuggestedWord.get_full db sid = some word)
    (hfresh : ∀ p ∈ db.words, p.1 < db.next_word_id)
    (href : ∀ wid, word.word_id = some wid → ∃ p ∈ db.words, p.1 = wid) :
    ∃ db1 t1,
      accept_suggested_word db t sid =
        Except.ok (db1, t1, some { success := true, method := some Method.Accept }) ∧
      t1.calls = t.calls ++
        [if word.word_id.isNone
          then IndexCall.add (word.to_document (accept_whole_word_suggestion db word).2)
          else IndexCall.edit (word.to_document (accept_whole_word_suggestion db word).2)] ∧
      Db.lookup_word db1 (accept_whole_word_suggestion db word).2 =
        some word.merged_entry := by
  cases hw : word.word_id with
  | none =>
    have hid : (accept_whole_word_suggestion db word).2 = db.next_word_id := by
      unfold accept_whole_word_suggestion
      rw [hw]
    have hkeys : ∀ p ∈ db.words, (p.1 == db.next_word_id) = false := by
      intro p hp
      simp [Nat.ne_of_lt (hfresh p hp)]
    refine ⟨_, _, accept_eq_of_get_none_ref db t sid word h hw, ?_, ?_⟩
    · rw [hid]
      rfl
    · rw [hid]
      show ((db.words ++ [(db.next_word_id, word.merged_entry)]).find?
          (fun p => p.1 == db.next_word_id)).map (fun p => p.2) = some word.merged_entry
      rw [find?_key_append_single db.words db.next_word_id word.merged_entry hkeys]
      rfl
  | some wid =>
    have hid : (accept_whole_word_suggestion db word).2 = wid := by
      unfold accept_whole_word_suggestion
      rw [hw]
    refine ⟨_, _, accept_eq_of_get_some_ref db t sid word wid h hw, ?_, ?_⟩
    · rw [hid]
      rfl
    · rw [hid]
      show ((db.words.map (fun p => if p.1 == wid then (wid, word.merged_entry) else p)).find?
          (fun p => p.1 == wid)).map (fun p => p.2) = some word.merged_entry
      rw [find?_key_map_update db.words wid word.merged_entry (href wid hw)]
      rfl

/-- Witness for claim C1 at the concrete one-suggestion database (a brand-new
word, no referenced entry id, so an `add` call). -/
theorem accept_builds_single_document_witness :
    SuggestedWord.get_full exampleDb 2 = some exampleSuggestion ∧
    (∃ db1 t1,
      accept_suggested_word exampleDb ⟨[], false⟩ 2 =
        Except.ok (db1, t1, some { success := true, method := some Method.Accept }) ∧
      t1.calls = ([] : List IndexCall) ++
        [if exampleSuggestion.word_id.isNone
          then IndexCall.add (exampleSuggestion.to_document
            (accept_whole_word_suggestion exampleDb exampleSuggestion).2)
          else IndexCall.edit (exampleSuggestion.to_document
            (accept_whole_word_suggestion exampleDb exampleSuggestion).2)] ∧
      Db.lookup_word db1 (accept_whole_word_suggestion exampleDb exampleSuggestion).2 =
        some exampleSuggestion.merged_entry) :=
  ⟨rfl, accept_builds_single_document exampleDb ⟨[], false⟩ 2 exampleSuggestion rfl
    (by intro p hp; simp [exampleDb] at hp)
    (by intro wid hw; exact Option.noConfusion hw)⟩

/-- Counterexample to claim C2 as stated: in a database whose only pending
suggestion (id 2) has just been resolved by reject, a subsequent accept call
on id 2 observes None from get and aborts abnormally (the `.unwrap()` panic
at `src/moderation.rs:129`) instead of reporting a graceful failure result to
the caller. -/
theorem accept_after_resolution_panics :
    accept_suggested_word (reject_suggested_word exampleDb 2).1 ⟨[], false⟩ 2 =
      Except.error Panic.unwrap_none := rfl

/-- Claim C2 (amended): for a suggestion id with no pending row (already
accepted or rejected), a subsequent reject call observes found = false from
delete, changes nothing, and reports a graceful failure reply
(success = false); a subsequent accept call observes None from get and panics
(`.unwrap()` on None) — an abnormal abort — before the merge step, so the
merge is never re-applied. -/
theorem resolved_id_second_action_spec (db : Db) (t : TantivyClient) (sid : Nat)
    (h : SuggestedWord.get_full db sid = none) :
    reject_suggested_word db sid =
      (db, some { success := false, method := some Method.Reject }) ∧
    accept_suggested_word db t sid = Except.error Panic.unwrap_none := by
  have hall : ∀ w ∈ db.suggestions, (w.suggestion_id == sid) = false := by
    intro w hw
    simpa using List.find?_eq_none.mp h w hw
  constructor
  · have hfilter := filter_not_eq_self_of_none db.suggestions _ hall
    have hany := any_eq_false_of_none db.suggestions _ hall
    simp only [reject_suggested_word, SuggestedWord.delete, suggested_words, hfilter, hany]
  · unfold accept_suggested_word
    rw [h]

/-- Witness for the amended claim C2 at the empty database and suggestion 3. -/
theorem resolved_id_second_action_spec_witness :
    SuggestedWord.get_full (⟨[], 0, [], 0⟩ : Db) 3 = none ∧
    (reject_suggested_word (⟨[], 0, [], 0⟩ : Db) 3 =
      ((⟨[], 0, [], 0⟩ : Db), some { success := false, method := some Method.Reject }) ∧
     accept_suggested_word (⟨[], 0, [], 0⟩ : Db) ⟨[], false⟩ 3 =
       Except.error Panic.unwrap_none) :=
  ⟨rfl, resolved_id_second_action_spec ⟨[], 0, [], 0⟩ ⟨[], false⟩ 3 rfl⟩

/-- Counterexample to claim C3 as stated: with an empty canonical store,
`submit_suggestion` fails with `InvalidReference` for a proposal referencing
entry 7, yet the boundary reply of `edit_suggestion_form` discards that
failure and reports unconditional success. -/
theorem moderation_discards_submit_failure :
    (submit_suggestion (⟨[], 0, [], 0⟩ : Db) exampleBadRefSubmission).2 =
      Except.error SubmitError.invalid_reference ∧
    (edit_suggestion_form (⟨[], 0, [], 0⟩ : Db) exampleBadRefSubmission).2 =
      some { success := true, method := some Method.Edit } :=
  ⟨rfl, rfl⟩

/-- Claim C3 (amended): moderation actions do not propagate submit or
index-sync failures as results: `edit_suggestion_form` reports success
unconditionally whatever `submit_suggestion` returned, and
`accept_suggested_word` reports success whenever the suggestion row exists,
whatever the awaited index call's outcome (including a failing index client);
the only surfaced failure in these actions is the missing-suggestion lookup
in accept, and it surfaces as a panic, not as an explicit result. -/
theorem moderation_reports_success_unconditionally (db : Db) (t : TantivyClient)
    (w : WordSubmission) (sid : Nat) (word : SuggestedWord)
    (h : SuggestedWord.get_full db sid = some word) :
    (edit_suggestion_form db w).2 = some { success := true, method := some Method.Edit } ∧
    (accept_suggested_word db t sid).map (fun r => r.2.2) =
      Except.ok (some { success := true, method := some Method.Accept }) := by
  constructor
  · rfl
  · unfold accept_suggested_word
    rw [h]
    rfl

/-- Witness for the amended claim C3 at the concrete one-suggestion database,
with an index client whose calls fail: accept still reports success. -/
theorem moderation_reports_success_unconditionally_witness :
    SuggestedWord.get_full exampleDb 2 = some exampleSuggestion ∧
    ((edit_suggestion_form exampleDb exampleBadRefSubmission).2 =
        some { success := true, method := some Method.Edit } ∧
     (accept_suggested_word exampleDb ⟨[], true⟩ 2).map (fun r => r.2.2) =
        Except.ok (some { success := true, method := some Method.Accept })) :=
  ⟨rfl, moderation_reports_success_unconditionally exampleDb ⟨[], true⟩
    exampleBadRefSubmission 2 exampleSuggestion rfl⟩

/-- Claim C4: for every existing suggestion id, the first delete call returns
found = true and removes the row; an immediately following delete call on the
same id returns found = false; neither call errors (`delete` is total and
returns only a boolean); and `reject_suggested_word` surfaces this boolean as
its reported success. -/
theorem delete_idempotent_and_reject_surfaces_found (db : Db) (sid : Nat)
    (word : SuggestedWord) (h : SuggestedWord.get_full db sid = some word) :
    (SuggestedWord.delete db sid).2 = true ∧
    SuggestedWord.get_full (SuggestedWord.delete db sid).1 sid = none ∧
    (SuggestedWord.delete (SuggestedWord.delete db sid).1 sid).2 = false ∧
    (reject_suggested_word db sid).2 =
      some { success := (SuggestedWord.delete db sid).2, method := some Method.Reject } := by
  have h2 : db.suggestions.find? (fun w2 => w2.suggestion_id == sid) = some word := h
  have hmem : word ∈ db.suggestions := List.mem_of_find?_eq_some h2
  have hpw := List.find?_some h2
  refine ⟨?_, ?_, ?_, rfl⟩
  · show db.suggestions.any (fun w2 => w2.suggestion_id == sid) = true
    exact List.any_eq_true.mpr ⟨word, hmem, hpw⟩
  · exact find?_filter_not_self db.suggestions (fun w2 => w2.suggestion_id == sid)
  · exact any_filter_not_self db.suggestions (fun w2 => w2.suggestion_id == sid)

/-- Witness for claim C4 at the concrete database with pending suggestion 2. -/
theorem delete_idempotent_and_reject_surfaces_found_witness :
    SuggestedWord.get_full exampleDb 2 = some exampleSuggestion ∧
    ((SuggestedWord.delete exampleDb 2).2 = true ∧
     SuggestedWord.get_full (SuggestedWord.delete exampleDb 2).1 2 = none ∧
     (SuggestedWord.delete (SuggestedWord.delete exampleDb 2).1 2).2 = false ∧
     (reject_suggested_word exampleDb 2).2 =
       some { success := (SuggestedWord.delete exampleDb 2).2, method := some Method.Reject }) :=
  ⟨rfl, delete_idempotent_and_reject_surfaces_found exampleDb 2 exampleSuggestion rfl⟩

/-- Claim C5: the reject operation performs only suggestion-row deletion:
dispatching a Reject action leaves the canonical word store (and its next
generated entry id) unchanged and returns the search-index client untouched —
its call log gains no entry, i.e. no index call is issued. -/
theorem reject_frame_effect (db : Db) (t : TantivyClient) (sid : Nat) :
    ∃ db1 r, process_one db t ⟨sid, Method.Reject⟩ = Except.ok (db1, t, r) ∧
      db1.words = db.words ∧ db1.next_word_id = db.next_word_id :=
  ⟨(reject_suggested_word db sid).1, (reject_suggested_word db sid).2, rfl, rfl, rfl⟩
